import Mathlib

/-!
Shallow embedding of the `backend-auth` authentication service
(`src/main.py`, `src/oauth.py`).

The backing MySQL store is modelled as an explicit `DB` value holding the
`users` and `oauth_accounts` tables as lists of rows; every endpoint is a
pure function from a request and the current `DB` to a response and the
next `DB`.  Library collaborators are modelled parametrically:

* `bcrypt` as a `Bcrypt` record of a hashing function and a check
  function.  `hashpw` stands for one call to
  `bcrypt.hashpw(pw, bcrypt.gensalt())` (the salt is folded into the
  function); `checkpw pw h` stands for `bcrypt.checkpw(pw, h)`.
* `PyJWT` (HS256) as a `Mac` function from key and payload to a signature
  value; `jwt.encode` pairs the payload with its mac, `jwt.decode`
  recomputes and compares the mac, then optionally checks expiry.
* Wall-clock time (`NOW()`, `datetime.now()`, `datetime.utcnow()`) as an
  explicit `now : Nat` parameter (seconds).

SQL `NULL` is `Option.none`; a SQL comparison against a `NULL` column
never matches, which the `Option` equality gives for free.
-/

/-- JWT claims dictionary built by the service:
`{'user_id': ..., 'username': ..., 'role': ..., 'exp': ...}`. -/
structure JwtPayload where
  user_id : Nat
  username : String
  role : String
  exp : Nat
  deriving DecidableEq, Repr

/-- A signed token: the payload together with its signature value. -/
structure Jwt where
  payload : JwtPayload
  sig : Nat
  deriving DecidableEq, Repr

/-- Abstract HS256 mac: key and payload to signature value. -/
def Mac : Type := String → JwtPayload → Nat

/-- `SECRET_KEY = os.getenv('SECRET_KEY', 'your-secret-key-123')` (default). -/
def SECRET_KEY : String := "your-secret-key-123"

/-- `jwt.encode(payload, key, algorithm='HS256')`. -/
def jwtEncode (mac : Mac) (key : String) (p : JwtPayload) : Jwt :=
  ⟨p, mac key p⟩

inductive JwtError where
  /-- `jwt.InvalidTokenError` / signature mismatch. -/
  | invalid : JwtError
  /-- `jwt.ExpiredSignatureError`. -/
  | expired : JwtError
  deriving DecidableEq, Repr

/-- `jwt.decode(token, key, algorithms=['HS256'], options)`: the signature
is always checked; the `exp` claim is checked only when `verifyExp` is
true (`refresh_token` passes `verify_exp: False`). -/
def jwtDecode (mac : Mac) (key : String) (verifyExp : Bool) (now : Nat)
    (t : Jwt) : Except JwtError JwtPayload :=
  if t.sig = mac key t.payload then
    if verifyExp ∧ t.payload.exp ≤ now then .error .expired
    else .ok t.payload
  else .error .invalid

/-- `str(e)` for the exception PyJWT raises on a bad signature. -/
def sigVerifyFailedMsg : String := "Signature verification failed"

/-- Abstract bcrypt: `hashpw pw` is one `bcrypt.hashpw(pw, gensalt())`
call, `checkpw pw h` is `bcrypt.checkpw(pw, h)`. -/
structure Bcrypt where
  hashpw : String → String
  checkpw : String → String → Bool

/-- One row of the `users` table.  Columns not touched by any endpoint
under `src/` are omitted.  `email` is a plain string because both code
paths that insert users store a string (possibly empty) there. -/
structure UserRow where
  id : Nat
  username : String
  email : String
  password_hash : Option String
  has_password : Bool
  oauth_only : Bool
  email_verified : Bool
  verification_token : Option String
  reset_token : Option String
  reset_token_expires : Option Nat
  role : String
  last_login : Option Nat
  deriving DecidableEq, Repr

/-- One row of the `oauth_accounts` table. -/
structure OAuthRow where
  user_id : Nat
  provider : String
  provider_user_id : String
  provider_email : String
  access_token : Option String
  refresh_token : Option String
  token_expires_at : Option Nat
  deriving DecidableEq, Repr

/-- The database: the two tables plus the `users` auto-increment counter. -/
structure DB where
  users : List UserRow
  oauth_accounts : List OAuthRow
  nextId : Nat
  deriving DecidableEq, Repr

/-- Python truthiness of a nullable string column: `None` and `''` are
falsy (`if user and user['password_hash'] and ...`). -/
def truthy : Option String → Bool
  | none => false
  | some s => !(s == "")

/-- SQL `reset_token_expires > NOW()`: false when the column is `NULL`. -/
def tokenLive : Option Nat → Nat → Bool
  | none, _ => false
  | some t, now => now < t

/-- SQL `UPDATE users SET ... WHERE id = %s`. -/
def updateUser (db : DB) (uid : Nat) (f : UserRow → UserRow) : DB :=
  { db with users := db.users.map (fun u => if u.id = uid then f u else u) }

/-- `str(e)` surface of the `AttributeError` raised by
`None.encode('utf-8')` when `password_hash` is SQL `NULL`
(Python renders it with quotes around the identifiers). -/
def noneEncodeMsg : String := "NoneType object has no attribute encode"

/-- `str(e)` surface of the `TypeError` raised by subscripting a `None`
row (`user_data['oauth_only']` after an empty `fetchone()`). -/
def noneSubscriptMsg : String := "NoneType object is not subscriptable"

/-- Observable outcome of an endpoint call: a 200 JSON body (`ok` for
`{"message": ...}`, `jsonErr` for `{"error": ...}`), a raised
`HTTPException(code, detail)`, or one of the structured success bodies. -/
inductive ApiResp where
  | ok : String → ApiResp
  | jsonErr : String → ApiResp
  | http : Nat → String → ApiResp
  | loginSuccess : Jwt → Nat → String → String → String → Nat → ApiResp
  | refreshSuccess : Jwt → Nat → ApiResp
  | oauthSuccess : Jwt → Nat → String → String → String → Bool → Nat → Bool → ApiResp
  deriving DecidableEq, Repr

/-- Python's membership test `'@' in body.username`, on the character
list of the string (kernel-reducible). -/
def pyContains (s : String) (c : Char) : Bool := s.data.contains c

/-- `POST /api/auth/login` (`main.py:login`).  The identifier is looked
up as an email when it contains `'@'`, as a username otherwise; the
guard `user and user['password_hash'] and bcrypt.checkpw(...)`
short-circuits, so `checkpw` runs only when the stored hash is truthy.
On success `last_login` is set and a token with the `remember_me` TTL is
issued; every failure returns the one uniform error body. -/
def loginOp (bc : Bcrypt) (mac : Mac) (db : DB) (now : Nat)
    (username password : String) (remember_me : Bool) : ApiResp × DB :=
  if username = "" ∨ password = "" then (.jsonErr "Missing credentials", db)
  else
    let user? := if pyContains username '@'
      then db.users.find? (fun u => u.email == username)
      else db.users.find? (fun u => u.username == username)
    match user? with
    | none => (.jsonErr "Invalid username/email or password", db)
    | some u =>
      if truthy u.password_hash && bc.checkpw password (u.password_hash.getD "") then
        let db1 := updateUser db u.id (fun v => { v with last_login := some now })
        let ttl := if remember_me then 30 * 24 * 3600 else 24 * 3600
        let tok := jwtEncode mac SECRET_KEY ⟨u.id, u.username, u.role, now + ttl⟩
        (.loginSuccess tok u.id u.username u.email u.role ttl, db1)
      else (.jsonErr "Invalid username/email or password", db)

/-- `POST /api/auth/forgot-password` (`main.py:forgot_password`).
`newTok` stands for the `secrets.token_urlsafe(32)` draw; the token
expires one hour out.  The same uniform message is returned whether or
not the email exists. -/
def forgotPassword (db : DB) (email : String) (newTok : String) (now : Nat) :
    ApiResp × DB :=
  if email = "" then (.jsonErr "Email is required", db)
  else
    match db.users.find? (fun u => u.email == email) with
    | some _ =>
      let db1 := { db with users := db.users.map (fun u =>
        if u.email = email then
          { u with reset_token := some newTok,
                   reset_token_expires := some (now + 3600) }
        else u) }
      (.ok "If the email exists, a password reset link has been sent", db1)
    | none =>
      (.ok "If the email exists, a password reset link has been sent", db)

/-- SQL `WHERE reset_token = %s AND reset_token_expires > NOW()`. -/
def resetMatch (tok : String) (now : Nat) (u : UserRow) : Bool :=
  u.reset_token == some tok && tokenLive u.reset_token_expires now

/-- `POST /api/auth/reset-password` (`main.py:reset_password`).  Looks
the token up with its expiry guard; on a hit stores the bcrypt hash of
the new password and clears both reset columns (and nothing else). -/
def resetPassword (bc : Bcrypt) (db : DB) (now : Nat)
    (token new_password : String) : ApiResp × DB :=
  if token = "" ∨ new_password = "" then
    (.jsonErr "Token and new password are required", db)
  else
    match db.users.find? (resetMatch token now) with
    | none => (.jsonErr "Invalid or expired token", db)
    | some u =>
      let hashed := bc.hashpw new_password
      let db1 := updateUser db u.id (fun v =>
        { v with password_hash := some hashed,
                 reset_token := none, reset_token_expires := none })
      (.ok "Password reset successfully", db1)

/-- `POST /api/auth/verify-email` (`main.py:verify_email`). -/
def verifyEmail (db : DB) (token : String) : ApiResp × DB :=
  if token = "" then (.jsonErr "Token is required", db)
  else
    match db.users.find? (fun u => u.verification_token == some token) with
    | none => (.jsonErr "Invalid verification token", db)
    | some u =>
      (.ok "Email verified successfully",
        updateUser db u.id (fun v =>
          { v with email_verified := true, verification_token := none }))

/-- `POST /api/auth/refresh` (`main.py:refresh_token`).  Decodes the
presented token with `verify_exp: False` — the signature is still
checked — and re-signs the same identity claims with a fresh 24h expiry.
Any decode failure is re-raised as `HTTPException(400, str(e))`. -/
def refreshToken (mac : Mac) (now : Nat) (credentials : Option Jwt) : ApiResp :=
  match credentials with
  | none => .http 401 "Missing authentication token"
  | some t =>
    match jwtDecode mac SECRET_KEY false now t with
    | .ok payload =>
      .refreshSuccess
        (jwtEncode mac SECRET_KEY { payload with exp := now + 24 * 3600 })
        (24 * 3600)
    | .error _ => .http 400 sigVerifyFailedMsg

/-- `POST /api/auth/change-password` (`main.py:change_password`), for an
authenticated `uid`.  Validation runs before any DB access; the current
password is then checked with
`bcrypt.checkpw(current.encode(), user_data['password_hash'].encode())`,
which raises `AttributeError` when the stored hash is `NULL` — caught by
the generic handler as `HTTPException(500, str(e))`. -/
def changePassword (bc : Bcrypt) (db : DB) (uid : Nat)
    (current_password new_password : String) : ApiResp × DB :=
  if current_password = "" ∨ new_password = "" then
    (.http 400 "Current password and new password are required", db)
  else if new_password.length < 6 then
    (.http 400 "New password must be at least 6 characters", db)
  else if current_password = new_password then
    (.http 400 "New password must be different from current password", db)
  else
    match db.users.find? (fun u => u.id == uid) with
    | none => (.http 404 "User not found", db)
    | some u =>
      match u.password_hash with
      | none => (.http 500 noneEncodeMsg, db)
      | some h =>
        if bc.checkpw current_password h then
          (.ok "Password changed successfully",
            updateUser db uid (fun v =>
              { v with password_hash := some (bc.hashpw new_password) }))
        else (.http 400 "Current password is incorrect", db)

/-- `DELETE /api/auth/delete-account` (`main.py:delete_account`).  The
cascade from `users` to `oauth_accounts` is part of the delete.  As in
`change_password`, a `NULL` stored hash makes the bcrypt check raise and
surface as a 500. -/
def deleteAccount (bc : Bcrypt) (db : DB) (uid : Nat)
    (password confirm_text : String) : ApiResp × DB :=
  if password = "" then
    (.http 400 "Password is required to delete account", db)
  else if confirm_text ≠ "DELETE" then
    (.http 400 "Please type DELETE to confirm account deletion", db)
  else
    match db.users.find? (fun u => u.id == uid) with
    | none => (.http 404 "User not found", db)
    | some u =>
      match u.password_hash with
      | none => (.http 500 noneEncodeMsg, db)
      | some h =>
        if bc.checkpw password h then
          (.ok "Account deleted successfully",
            { db with users := db.users.filter (fun v => !(v.id == uid)),
                      oauth_accounts :=
                        db.oauth_accounts.filter (fun l => !(l.user_id == uid)) })
        else (.http 400 "Incorrect password", db)

/-- `POST /api/auth/set-password` (`main.py:set_password`).  Only for an
account with `has_password = FALSE`; on success stores the hash and sets
`has_password = TRUE, oauth_only = FALSE` in one UPDATE. -/
def setPassword (bc : Bcrypt) (db : DB) (uid : Nat) (new_password : String) :
    ApiResp × DB :=
  if new_password = "" ∨ new_password.length < 6 then
    (.http 400 "Password must be at least 6 characters", db)
  else
    match db.users.find? (fun u => u.id == uid) with
    | none => (.http 404 "User not found", db)
    | some u =>
      if u.has_password then
        (.http 400 "You already have a password. Use change-password instead.", db)
      else
        (.ok "Password set successfully. You can now login with username/password.",
          updateUser db uid (fun v =>
            { v with password_hash := some (bc.hashpw new_password),
                     has_password := true, oauth_only := false }))

/-- Python `str.capitalize()` as used on the provider name. -/
def pyCapitalize (s : String) : String :=
  match s.data with
  | [] => ""
  | c :: cs => ⟨c.toUpper :: cs.map Char.toLower⟩

/-- `DELETE /api/auth/unlink/{provider}` (`oauth.py:unlink_oauth_account`).
`user` is the value the route dependency injects for the `user`
parameter; the first line `if not user: raise HTTPException(401)` is
the `none` branch.  The rest of the body — provider check, oauth-only
guard, `(user_id, provider)` delete, 404 — runs only under a `some uid`
injection.  An absent user row there makes `user_data['oauth_only']`
raise `TypeError`, caught as a 500. -/
def unlinkOauthAccount (db : DB) (user : Option Nat) (provider : String) :
    ApiResp × DB :=
  match user with
  | none => (.http 401 "Unauthorized", db)
  | some uid =>
  if provider ≠ "google" ∧ provider ≠ "facebook" then
    (.http 400 "Invalid provider", db)
  else
    match db.users.find? (fun u => u.id == uid) with
    | none => (.http 500 noneSubscriptMsg, db)
    | some u =>
      if u.oauth_only && !u.has_password then
        (.http 400 "Cannot unlink. You must set a password first (this is your only login method)", db)
      else
        let deleted := db.oauth_accounts.countP
          (fun l => l.user_id == uid && l.provider == provider)
        let db1 := { db with oauth_accounts :=
          db.oauth_accounts.filter (fun l => !(l.user_id == uid && l.provider == provider)) }
        if deleted = 0 then
          (.http 404 (provider ++ " account not linked"), db1)
        else
          (.ok (pyCapitalize provider ++ " account unlinked successfully"), db1)

/-- The unlink route as wired in the shipped router: its authentication
dependency is the stub `Depends(lambda: None)` (`oauth.py:265`, against
the source's own TODO to use `get_current_user`), so FastAPI injects
`None` for `user` on every request. -/
def unlinkOauthRoute (db : DB) (provider : String) : ApiResp × DB :=
  unlinkOauthAccount db none provider

/-- `email.split('@')[0]`: the local part of the email. -/
def localPart (email : String) : String :=
  (email.splitOn "@").headD ""

/-- SQL JOIN predicate of the callback's first lookup
(`oauth_accounts oa JOIN users u ON oa.user_id = u.id WHERE
oa.provider = 'google' AND oa.provider_user_id = %s`): the link row
matches only when a joined user row exists. -/
def googleLinkJoined (db : DB) (google_id : String) (l : OAuthRow) : Bool :=
  l.provider == "google" && l.provider_user_id == google_id &&
    db.users.any (fun u => u.id == l.user_id)

/-- `GET /api/auth/google/callback` (`oauth.py:google_callback`), from
the point where the provider exchange has yielded `google_id`,
`google_email`, `access_token`, `refresh_token` and `expires_in` (the
HTTP exchange with Google is an external collaborator).  Three branches:
existing link is a login; an account with the same email gets a new link
(implicit linking); otherwise a fresh OAuth-only account plus its first
link is created, its username derived from the email local part plus
`'_google'`, suffixed with the current timestamp when taken.  All
branches issue a 30-day token. -/
def googleCallback (mac : Mac) (db : DB) (now : Nat)
    (google_id google_email : String) (access_token : String)
    (refresh_tok : Option String) (expires_in : Nat) : ApiResp × DB :=
  match db.oauth_accounts.find? (googleLinkJoined db google_id) with
  | some link =>
    let db1 := { db with oauth_accounts := db.oauth_accounts.map (fun l =>
      if l.provider = "google" ∧ l.provider_user_id = google_id then
        { l with access_token := some access_token,
                 refresh_token := refresh_tok,
                 token_expires_at := some (now + expires_in) }
      else l) }
    let db2 := updateUser db1 link.user_id (fun v => { v with last_login := some now })
    match db2.users.find? (fun u => u.id == link.user_id) with
    | none => (.http 500 noneSubscriptMsg, db2)
    | some user =>
      (.oauthSuccess
        (jwtEncode mac SECRET_KEY ⟨user.id, user.username, user.role, now + 30 * 24 * 3600⟩)
        user.id user.username user.email user.role user.has_password
        (30 * 24 * 3600) false, db2)
  | none =>
    match db.users.find? (fun u => u.email == google_email) with
    | some existing =>
      let newLink : OAuthRow :=
        { user_id := existing.id, provider := "google",
          provider_user_id := google_id, provider_email := google_email,
          access_token := some access_token, refresh_token := refresh_tok,
          token_expires_at := some (now + expires_in) }
      let db1 := { db with oauth_accounts := db.oauth_accounts ++ [newLink] }
      let db2 := updateUser db1 existing.id (fun v => { v with last_login := some now })
      (.oauthSuccess
        (jwtEncode mac SECRET_KEY
          ⟨existing.id, existing.username, existing.role, now + 30 * 24 * 3600⟩)
        existing.id existing.username existing.email existing.role
        existing.has_password (30 * 24 * 3600) true, db2)
    | none =>
      let base := localPart google_email ++ "_google"
      let uname := if db.users.any (fun u => u.username == base)
        then base ++ "_" ++ toString now else base
      let newUser : UserRow :=
        { id := db.nextId, username := uname, email := google_email,
          password_hash := none, has_password := false, oauth_only := true,
          email_verified := true, verification_token := none,
          reset_token := none, reset_token_expires := none,
          role := "user", last_login := none }
      let newLink : OAuthRow :=
        { user_id := db.nextId, provider := "google",
          provider_user_id := google_id, provider_email := google_email,
          access_token := some access_token, refresh_token := refresh_tok,
          token_expires_at := some (now + expires_in) }
      let db1 : DB :=
        { users := db.users ++ [newUser],
          oauth_accounts := db.oauth_accounts ++ [newLink],
          nextId := db.nextId + 1 }
      (.oauthSuccess
        (jwtEncode mac SECRET_KEY ⟨db.nextId, uname, "user", now + 30 * 24 * 3600⟩)
        db.nextId uname google_email "user" false (30 * 24 * 3600) false, db1)

/-! Concrete instances used to evaluate the model on closed inputs. -/

/-- A concrete bcrypt stand-in: deterministic tagging hash with the
matching check. -/
def bcT : Bcrypt := ⟨fun p => "h:" ++ p, fun p h => h == ("h:" ++ p)⟩

/-- A concrete mac for closed evaluation. -/
def macT : Mac := fun k p => k.length + p.user_id + 7 * p.exp

/-- An OAuth-only account (no stored hash, `has_password = FALSE`)
holding a live reset token that expires at time 100. -/
def userT : UserRow :=
  { id := 1, username := "oauthy", email := "o@x.com",
    password_hash := none, has_password := false, oauth_only := true,
    email_verified := true, verification_token := none,
    reset_token := some "tok1", reset_token_expires := some 100,
    role := "user", last_login := none }

/-- The google link of `userT`. -/
def linkT : OAuthRow :=
  { user_id := 1, provider := "google", provider_user_id := "g1",
    provider_email := "o@x.com", access_token := some "a",
    refresh_token := none, token_expires_at := some 100 }

/-- One OAuth-only user with one google link. -/
def dbT : DB := { users := [userT], oauth_accounts := [linkT], nextId := 2 }

/-- A password account (`has_password = TRUE`, stored hash of `pw1234`
under `bcT`) with no tokens. -/
def userPwT : UserRow :=
  { id := 1, username := "bob", email := "bob@x.com",
    password_hash := some "h:pw1234", has_password := true,
    oauth_only := false, email_verified := true, verification_token := none,
    reset_token := none, reset_token_expires := none,
    role := "user", last_login := none }

/-- One password user, no links. -/
def dbPwT : DB := { users := [userPwT], oauth_accounts := [], nextId := 2 }

/-- Whenever a callback response is the structured OAuth success body,
its token expiry is 30 days out and `expires_in` is 30 days. -/
def issuedExtendedTTL (now : Nat) : ApiResp → Prop
  | .oauthSuccess tok _ _ _ _ _ ei _ =>
      tok.payload.exp = now + 30 * 24 * 3600 ∧ ei = 30 * 24 * 3600
  | _ => True

/-! Theorems. -/

/-- C6: `refresh_token` accepts every token whose signature verifies
under the service secret — with no hypothesis on its expiry instant, so
in particular an expired one — and returns the same identity claims
re-signed with a fresh 24h TTL, which then verifies as valid at the
refresh time; a token whose signature does not verify is rejected with a
400 and nothing is issued. -/
theorem C6_refresh_ignores_expiry_not_signature (mac : Mac) (now : Nat) (t : Jwt) :
    (t.sig = mac SECRET_KEY t.payload →
      refreshToken mac now (some t) =
        .refreshSuccess
          (jwtEncode mac SECRET_KEY { t.payload with exp := now + 24 * 3600 })
          (24 * 3600) ∧
      jwtDecode mac SECRET_KEY true now
          (jwtEncode mac SECRET_KEY { t.payload with exp := now + 24 * 3600 }) =
        .ok { t.payload with exp := now + 24 * 3600 }) ∧
    (t.sig ≠ mac SECRET_KEY t.payload →
      refreshToken mac now (some t) = .http 400 sigVerifyFailedMsg) := by
  constructor
  · intro h
    constructor
    · simp [refreshToken, jwtDecode, h]
    · simp [jwtDecode, jwtEncode]
  · intro h
    simp [refreshToken, jwtDecode, h]

/-- C6 witness: a concrete expired-but-correctly-signed token (expiry 5,
clock at 1000) refreshes successfully into a token expiring at
1000 + 24h which verifies as valid, while the same payload with a wrong
signature is rejected with a 400. -/
theorem C6_refresh_witness :
    (refreshToken macT 1000 (some (jwtEncode macT SECRET_KEY ⟨1, "bob", "user", 5⟩)) =
      .refreshSuccess (jwtEncode macT SECRET_KEY ⟨1, "bob", "user", 1000 + 24 * 3600⟩)
        (24 * 3600) ∧
     jwtDecode macT SECRET_KEY true 1000
        (jwtEncode macT SECRET_KEY ⟨1, "bob", "user", 1000 + 24 * 3600⟩) =
      .ok ⟨1, "bob", "user", 1000 + 24 * 3600⟩) ∧
    refreshToken macT 1000 (some ⟨⟨1, "bob", "user", 5⟩, 0⟩) =
      .http 400 sigVerifyFailedMsg := by
  refine ⟨(C6_refresh_ignores_expiry_not_signature macT 1000
    (jwtEncode macT SECRET_KEY ⟨1, "bob", "user", 5⟩)).1 rfl,
    (C6_refresh_ignores_expiry_not_signature macT 1000
    ⟨⟨1, "bob", "user", 5⟩, 0⟩).2 (by decide)⟩

/-- C5: when every row holding the reset token is past expiry
(`reset_token_expires ≤ now`, or `NULL`), `reset_password` rejects it
with the invalid-or-expired error and mutates nothing, even though a row
still physically holds the token value. -/
theorem C5_expired_reset_token_rejected (bc : Bcrypt) (db : DB) (now : Nat)
    (tok newpw : String) (htok : tok ≠ "") (hpw : newpw ≠ "")
    (_hheld : ∃ u ∈ db.users, u.reset_token = some tok)
    (hexp : ∀ u ∈ db.users, u.reset_token = some tok →
      tokenLive u.reset_token_expires now = false) :
    resetPassword bc db now tok newpw = (.jsonErr "Invalid or expired token", db) := by
  have hfind : db.users.find? (resetMatch tok now) = none := by
    rw [List.find?_eq_none]
    intro u hu
    simp only [resetMatch, Bool.and_eq_true, beq_iff_eq, not_and]
    intro h
    simp [hexp u hu h]
  unfold resetPassword
  rw [if_neg (by simp [htok, hpw]), hfind]

/-- C5 witness: in `dbT` the stored token `tok1` expires at 100; at time
100 (not strictly before expiry) it is rejected and the database is
untouched. -/
theorem C5_expired_reset_token_witness :
    resetPassword bcT dbT 100 "tok1" "newpass123" =
      (.jsonErr "Invalid or expired token", dbT) := by
  refine C5_expired_reset_token_rejected bcT dbT 100 "tok1" "newpass123"
    (by decide) (by decide) ⟨userT, by decide, by decide⟩ ?_
  decide

/-- C1 counterexample: on `dbT` (an OAuth-only account whose live reset
token `tok1` expires at 100, with `has_password = FALSE`), the call
`reset_password("tok1", "newpass123")` at time 50 succeeds and stores
the bcrypt hash — but the account's `has_password` is still `false`
afterwards, so the claim's "sets has_password = true" is false on the
code: the UPDATE in `main.py:reset_password` names only
`password_hash`, `reset_token` and `reset_token_expires`. -/
theorem C1_counterexample :
    (resetPassword bcT dbT 50 "tok1" "newpass123").1 =
      .ok "Password reset successfully" ∧
    (resetPassword bcT dbT 50 "tok1" "newpass123").2.users.map
        (fun u => (u.has_password, u.password_hash)) =
      [(false, some "h:newpass123")] := by
  constructor <;> rfl

/-- C1 (amended): a successful `reset_password` stores the bcrypt hash
of the new password as `password_hash` and clears both reset-token
columns, leaving every other column — in particular `has_password` —
unchanged; an OAuth-only account with `has_password = false` therefore
keeps `has_password = false` while gaining a stored hash. -/
theorem C1_reset_password_stores_hash_only (bc : Bcrypt) (db : DB) (now : Nat)
    (tok newpw : String) (u : UserRow) (htok : tok ≠ "") (hpw : newpw ≠ "")
    (hfind : db.users.find? (resetMatch tok now) = some u) :
    resetPassword bc db now tok newpw =
      (.ok "Password reset successfully",
        { db with users := db.users.map (fun v => if v.id = u.id then
            { v with password_hash := some (bc.hashpw newpw),
                     reset_token := none, reset_token_expires := none }
          else v) }) := by
  unfold resetPassword
  rw [if_neg (by simp [htok, hpw]), hfind]
  rfl

/-- C1 witness: the amended statement evaluated on `dbT` at time 50. -/
theorem C1_reset_password_witness :
    resetPassword bcT dbT 50 "tok1" "newpass123" =
      (.ok "Password reset successfully",
        { dbT with users := dbT.users.map (fun v => if v.id = userT.id then
            { v with password_hash := some (bcT.hashpw "newpass123"),
                     reset_token := none, reset_token_expires := none }
          else v) }) :=
  C1_reset_password_stores_hash_only bcT dbT 50 "tok1" "newpass123" userT
    (by decide) (by decide) (by decide)

/-- C3: when the login identifier resolves to an account whose
`password_hash` column is NULL (`has_password = FALSE`, the OAuth-only
shape), the call returns the uniform invalid-credentials error with no
state change, and the outcome is the same for every possible `checkpw`
function — the short-circuited guard never evaluates the bcrypt
comparison against the absent hash, so the error branch is reached
without raising. -/
theorem C3_login_absent_hash_uniform (hashf : String → String)
    (cp cp2 : String → String → Bool) (mac : Mac) (db : DB) (now : Nat)
    (ident pw : String) (rm : Bool) (u : UserRow)
    (hid : ident ≠ "") (hpw : pw ≠ "")
    (hfind : (if pyContains ident '@'
        then db.users.find? (fun v => v.email == ident)
        else db.users.find? (fun v => v.username == ident)) = some u)
    (hhash : u.password_hash = none) (_hflag : u.has_password = false) :
    loginOp ⟨hashf, cp⟩ mac db now ident pw rm =
      (.jsonErr "Invalid username/email or password", db) ∧
    loginOp ⟨hashf, cp⟩ mac db now ident pw rm =
      loginOp ⟨hashf, cp2⟩ mac db now ident pw rm := by
  have key : ∀ c : String → String → Bool,
      loginOp ⟨hashf, c⟩ mac db now ident pw rm =
        (.jsonErr "Invalid username/email or password", db) := by
    intro c
    unfold loginOp
    rw [if_neg (by simp [hid, hpw])]
    simp only
    rw [hfind]
    simp [truthy, hhash]
  exact ⟨key cp, by rw [key cp, key cp2]⟩

/-- C3 witness: logging in as the OAuth-only `userT` (hash NULL) with
two opposite `checkpw` oracles gives the same uniform error and leaves
`dbT` unchanged. -/
theorem C3_login_absent_hash_witness :
    loginOp ⟨fun p => "h:" ++ p, fun _ _ => true⟩ macT dbT 7 "oauthy" "guess" false =
      (.jsonErr "Invalid username/email or password", dbT) ∧
    loginOp ⟨fun p => "h:" ++ p, fun _ _ => true⟩ macT dbT 7 "oauthy" "guess" false =
      loginOp ⟨fun p => "h:" ++ p, fun _ _ => false⟩ macT dbT 7 "oauthy" "guess" false :=
  C3_login_absent_hash_uniform (fun p => "h:" ++ p) (fun _ _ => true)
    (fun _ _ => false) macT dbT 7 "oauthy" "guess" false userT
    (by decide) (by decide) (by decide) (by decide) (by decide)

/-- C7: neither password login nor forgot-password reveals account
existence.  A login whose identifier is not found and a login that finds
an account but fails the bcrypt check (a truthy stored hash with a wrong
password) return the identical uniform error body; a forgot-password
call on a registered email and one on an unregistered email return the
identical uniform success message. -/
theorem C7_no_account_enumeration :
    (∀ (bc bc2 : Bcrypt) (mac mac2 : Mac) (db db2 : DB) (now now2 : Nat)
        (id1 pw1 id2 pw2 : String) (rm rm2 : Bool) (u : UserRow) (h : String),
      id1 ≠ "" → pw1 ≠ "" → id2 ≠ "" → pw2 ≠ "" →
      (if pyContains id1 '@'
          then db.users.find? (fun v => v.email == id1)
          else db.users.find? (fun v => v.username == id1)) = none →
      (if pyContains id2 '@'
          then db2.users.find? (fun v => v.email == id2)
          else db2.users.find? (fun v => v.username == id2)) = some u →
      u.password_hash = some h → h ≠ "" → bc2.checkpw pw2 h = false →
      (loginOp bc mac db now id1 pw1 rm).1 =
          .jsonErr "Invalid username/email or password" ∧
        (loginOp bc2 mac2 db2 now2 id2 pw2 rm2).1 =
          .jsonErr "Invalid username/email or password" ∧
        (loginOp bc mac db now id1 pw1 rm).1 =
          (loginOp bc2 mac2 db2 now2 id2 pw2 rm2).1) ∧
    (∀ (db db2 : DB) (e1 e2 tok1 tok2 : String) (now now2 : Nat) (u : UserRow),
      e1 ≠ "" → e2 ≠ "" →
      db.users.find? (fun v => v.email == e1) = some u →
      db2.users.find? (fun v => v.email == e2) = none →
      (forgotPassword db e1 tok1 now).1 =
          .ok "If the email exists, a password reset link has been sent" ∧
        (forgotPassword db2 e2 tok2 now2).1 =
          .ok "If the email exists, a password reset link has been sent" ∧
        (forgotPassword db e1 tok1 now).1 = (forgotPassword db2 e2 tok2 now2).1) := by
  constructor
  · intro bc bc2 mac mac2 db db2 now now2 id1 pw1 id2 pw2 rm rm2 u h
    intro h1 h2 h3 h4 hfind1 hfind2 hhash hne hcheck
    have k1 : (loginOp bc mac db now id1 pw1 rm).1 =
        .jsonErr "Invalid username/email or password" := by
      unfold loginOp
      rw [if_neg (by simp [h1, h2])]
      simp only
      rw [hfind1]
    have k2 : (loginOp bc2 mac2 db2 now2 id2 pw2 rm2).1 =
        .jsonErr "Invalid username/email or password" := by
      unfold loginOp
      rw [if_neg (by simp [h3, h4])]
      simp only
      rw [hfind2]
      simp [truthy, hhash, hne, hcheck]
    exact ⟨k1, k2, by rw [k1, k2]⟩
  · intro db db2 e1 e2 tok1 tok2 now now2 u h1 h2 hfind1 hfind2
    have k1 : (forgotPassword db e1 tok1 now).1 =
        .ok "If the email exists, a password reset link has been sent" := by
      unfold forgotPassword
      rw [if_neg h1, hfind1]
    have k2 : (forgotPassword db2 e2 tok2 now2).1 =
        .ok "If the email exists, a password reset link has been sent" := by
      unfold forgotPassword
      rw [if_neg h2, hfind2]
    exact ⟨k1, k2, by rw [k1, k2]⟩

/-- C7 witness: a login for the absent username `nobody` and a login for
the existing `bob` with the wrong password return the same error body on
`dbPwT`; forgot-password on the registered `bob@x.com` and on the
unregistered `ghost@x.com` return the same message. -/
theorem C7_no_account_enumeration_witness :
    (loginOp bcT macT dbPwT 7 "nobody" "x" false).1 =
        .jsonErr "Invalid username/email or password" ∧
      (loginOp bcT macT dbPwT 7 "bob" "wrongpw" false).1 =
        .jsonErr "Invalid username/email or password" ∧
      (loginOp bcT macT dbPwT 7 "nobody" "x" false).1 =
        (loginOp bcT macT dbPwT 7 "bob" "wrongpw" false).1 ∧
    ((forgotPassword dbPwT "bob@x.com" "t1" 7).1 =
        .ok "If the email exists, a password reset link has been sent" ∧
      (forgotPassword dbPwT "ghost@x.com" "t2" 7).1 =
        .ok "If the email exists, a password reset link has been sent" ∧
      (forgotPassword dbPwT "bob@x.com" "t1" 7).1 =
        (forgotPassword dbPwT "ghost@x.com" "t2" 7).1) := by
  obtain ⟨hl, hf⟩ := C7_no_account_enumeration
  obtain ⟨a, b, c⟩ := hl bcT bcT macT macT dbPwT dbPwT 7 7 "nobody" "x" "bob"
    "wrongpw" false false userPwT "h:pw1234" (by decide) (by decide) (by decide)
    (by decide) (by decide) (by decide) (by decide) (by decide) (by decide)
  obtain ⟨d, e, f⟩ := hf dbPwT dbPwT "bob@x.com" "ghost@x.com" "t1" "t2" 7 7
    userPwT (by decide) (by decide) (by decide) (by decide)
  exact ⟨a, b, c, d, e, f⟩

/-- C8: `change_password` rejects a new password shorter than 6
characters with a 400 validation error and no state change, rejects a
new password identical to the current one likewise, and succeeds for a
6-character new password with a correct (and distinct) current password
on an existing account, replacing the stored hash. -/
theorem C8_change_password_validation :
    (∀ (bc : Bcrypt) (db : DB) (uid : Nat) (cur new : String),
      new.length < 6 →
      ∃ m, changePassword bc db uid cur new = (.http 400 m, db)) ∧
    (∀ (bc : Bcrypt) (db : DB) (uid : Nat) (cur new : String),
      cur = new →
      ∃ m, changePassword bc db uid cur new = (.http 400 m, db)) ∧
    (∀ (bc : Bcrypt) (db : DB) (uid : Nat) (cur new : String) (u : UserRow)
        (h : String),
      cur ≠ "" → new.length = 6 → cur ≠ new →
      db.users.find? (fun v => v.id == uid) = some u →
      u.password_hash = some h → bc.checkpw cur h = true →
      changePassword bc db uid cur new =
        (.ok "Password changed successfully",
          updateUser db uid (fun v =>
            { v with password_hash := some (bc.hashpw new) }))) := by
  refine ⟨?_, ?_, ?_⟩
  · intro bc db uid cur new hlen
    unfold changePassword
    by_cases h1 : cur = "" ∨ new = ""
    · rw [if_pos h1]; exact ⟨_, rfl⟩
    · rw [if_neg h1, if_pos hlen]; exact ⟨_, rfl⟩
  · intro bc db uid cur new heq
    unfold changePassword
    by_cases h1 : cur = "" ∨ new = ""
    · rw [if_pos h1]; exact ⟨_, rfl⟩
    · rw [if_neg h1]
      by_cases h2 : new.length < 6
      · rw [if_pos h2]; exact ⟨_, rfl⟩
      · rw [if_neg h2, if_pos heq]; exact ⟨_, rfl⟩
  · intro bc db uid cur new u h hc hlen hne hfind hhash hcheck
    have hcond : ¬(cur = "" ∨ new = "") := by
      rintro (h1 | h1)
      · exact hc h1
      · rw [h1] at hlen; simp at hlen
    unfold changePassword
    rw [if_neg hcond, if_neg (by omega), if_neg hne]
    simp [hfind, hhash, hcheck]

/-- C8 witness: on `dbPwT` with the current password `pw1234`, a
5-character new password fails with a 400 and no state change, so does a
new password equal to the current one, and the 6-character `newpw6`
succeeds and replaces the stored hash. -/
theorem C8_change_password_witness :
    (∃ m, changePassword bcT dbPwT 1 "pw1234" "abcde" = (.http 400 m, dbPwT)) ∧
    (∃ m, changePassword bcT dbPwT 1 "pw1234" "pw1234" = (.http 400 m, dbPwT)) ∧
    changePassword bcT dbPwT 1 "pw1234" "newpw6" =
      (.ok "Password changed successfully",
        updateUser dbPwT 1 (fun v =>
          { v with password_hash := some (bcT.hashpw "newpw6") })) := by
  obtain ⟨k1, k2, k3⟩ := C8_change_password_validation
  exact ⟨k1 bcT dbPwT 1 "pw1234" "abcde" (by decide),
    k2 bcT dbPwT 1 "pw1234" "pw1234" rfl,
    k3 bcT dbPwT 1 "pw1234" "newpw6" userPwT "h:pw1234" (by decide) (by decide)
      (by decide) (by decide) (by decide) (by decide)⟩

/-- C10: for an account whose stored hash is NULL
(`has_password = FALSE`), `change_password` and `delete_account` never
reach a clean authorization error: once input validation passes, the
bcrypt check dereferences the absent hash and the raised exception
surfaces through the generic handler as a 500 carrying the internal
exception message; moreover no input whatsoever makes either endpoint
succeed or change the account state. -/
theorem C10_null_hash_change_delete_crash (bc : Bcrypt) (db : DB) (uid : Nat)
    (u : UserRow) (hfind : db.users.find? (fun v => v.id == uid) = some u)
    (_hflag : u.has_password = false) (hhash : u.password_hash = none) :
    (∀ cur new : String, cur ≠ "" → 6 ≤ new.length → cur ≠ new →
      changePassword bc db uid cur new = (.http 500 noneEncodeMsg, db)) ∧
    (∀ pw : String, pw ≠ "" →
      deleteAccount bc db uid pw "DELETE" = (.http 500 noneEncodeMsg, db)) ∧
    (∀ cur new : String, (changePassword bc db uid cur new).2 = db ∧
      ∀ m, (changePassword bc db uid cur new).1 ≠ .ok m) ∧
    (∀ pw conf : String, (deleteAccount bc db uid pw conf).2 = db ∧
      ∀ m, (deleteAccount bc db uid pw conf).1 ≠ .ok m) := by
  refine ⟨?_, ?_, ?_, ?_⟩
  · intro cur new hc hlen hne
    have hcond : ¬(cur = "" ∨ new = "") := by
      rintro (h1 | h1)
      · exact hc h1
      · rw [h1] at hlen; simp at hlen
    unfold changePassword
    rw [if_neg hcond, if_neg (by omega), if_neg hne]
    simp [hfind, hhash]
  · intro pw hp
    unfold deleteAccount
    rw [if_neg hp, if_neg (by simp)]
    simp [hfind, hhash]
  · intro cur new
    unfold changePassword
    simp only [hfind, hhash]
    split_ifs <;> exact ⟨rfl, fun m => by simp⟩
  · intro pw conf
    unfold deleteAccount
    simp only [hfind, hhash]
    split_ifs <;> exact ⟨rfl, fun m => by simp⟩

/-- C10 witness: on `dbT` (OAuth-only `userT`, hash NULL), a
validation-passing `change_password` and a confirmed `delete_account`
both return the 500 with the internal message and leave the database
unchanged, and an arbitrary other call also leaves it unchanged without
succeeding. -/
theorem C10_null_hash_witness :
    changePassword bcT dbT 1 "oldpw1" "newpw6" = (.http 500 noneEncodeMsg, dbT) ∧
    deleteAccount bcT dbT 1 "anypw" "DELETE" = (.http 500 noneEncodeMsg, dbT) ∧
    ((changePassword bcT dbT 1 "x" "y").2 = dbT ∧
      ∀ m, (changePassword bcT dbT 1 "x" "y").1 ≠ .ok m) ∧
    ((deleteAccount bcT dbT 1 "x" "nope").2 = dbT ∧
      ∀ m, (deleteAccount bcT dbT 1 "x" "nope").1 ≠ .ok m) := by
  obtain ⟨k1, k2, k3, k4⟩ := C10_null_hash_change_delete_crash bcT dbT 1 userT
    (by decide) (by decide) (by decide)
  exact ⟨k1 "oldpw1" "newpw6" (by decide) (by decide) (by decide),
    k2 "anypw" (by decide), k3 "x" "y", k4 "x" "nope"⟩

/-- Helper: `reset_password` on a token that matches no live row returns
the invalid-or-expired error and leaves the database unchanged. -/
theorem resetPassword_no_match (bc : Bcrypt) (db : DB) (now : Nat)
    (tok npw : String) (htok : tok ≠ "") (hpw : npw ≠ "")
    (hfind : db.users.find? (resetMatch tok now) = none) :
    resetPassword bc db now tok npw = (.jsonErr "Invalid or expired token", db) := by
  unfold resetPassword
  rw [if_neg (by simp [htok, hpw]), hfind]

/-- Helper: the successful `reset_password` transition, written out. -/
theorem resetPassword_found (bc : Bcrypt) (db : DB) (now : Nat)
    (tok npw : String) (u : UserRow) (htok : tok ≠ "") (hpw : npw ≠ "")
    (hfind : db.users.find? (resetMatch tok now) = some u) :
    resetPassword bc db now tok npw =
      (.ok "Password reset successfully",
        { db with users := db.users.map (fun v => if v.id = u.id then
            { v with password_hash := some (bc.hashpw npw),
                     reset_token := none, reset_token_expires := none }
          else v) }) := by
  unfold resetPassword
  rw [if_neg (by simp [htok, hpw]), hfind]
  rfl

/-- C2: once a `reset_password` call successfully consumes a token
(held, as reset tokens are, by a single account), the consumed rows have
`reset_token` and `reset_token_expires` cleared to NULL, and any later
`reset_password` presenting the same token value — at any clock reading
— returns the invalid-or-expired error and mutates nothing. -/
theorem C2_reset_token_single_use (bc bc2 : Bcrypt) (db : DB) (now now2 : Nat)
    (tok newpw newpw2 : String) (u : UserRow)
    (htok : tok ≠ "") (hpw : newpw ≠ "") (hpw2 : newpw2 ≠ "")
    (hfind : db.users.find? (resetMatch tok now) = some u)
    (huniq : ∀ v ∈ db.users, v.reset_token = some tok → v.id = u.id) :
    (resetPassword bc db now tok newpw).1 = .ok "Password reset successfully" ∧
    (∀ v ∈ (resetPassword bc db now tok newpw).2.users, v.id = u.id →
      v.reset_token = none ∧ v.reset_token_expires = none) ∧
    resetPassword bc2 (resetPassword bc db now tok newpw).2 now2 tok newpw2 =
      (.jsonErr "Invalid or expired token", (resetPassword bc db now tok newpw).2) := by
  have hrun := resetPassword_found bc db now tok newpw u htok hpw hfind
  refine ⟨by rw [hrun], ?_, ?_⟩
  · intro v hv hid
    rw [hrun] at hv
    simp only [List.mem_map] at hv
    obtain ⟨w, hw, rfl⟩ := hv
    by_cases hwid : w.id = u.id
    · simp [hwid]
    · rw [if_neg hwid] at hid ⊢
      exact absurd hid hwid
  · refine resetPassword_no_match bc2 _ now2 tok newpw2 htok hpw2 ?_
    rw [hrun, List.find?_eq_none]
    intro v hv
    simp only [List.mem_map] at hv
    obtain ⟨w, hw, rfl⟩ := hv
    by_cases hwid : w.id = u.id
    · simp [resetMatch, hwid]
    · rw [if_neg hwid]
      simp only [resetMatch, Bool.and_eq_true, beq_iff_eq, not_and]
      intro hcontra
      exact absurd (huniq w hw hcontra) hwid

/-- C2 witness: on `dbT`, consuming `tok1` at time 50 succeeds and
clears both reset columns, and replaying the same token at time 60 is
rejected without mutation. -/
theorem C2_reset_token_single_use_witness :
    (resetPassword bcT dbT 50 "tok1" "newpass123").1 =
      .ok "Password reset successfully" ∧
    (∀ v ∈ (resetPassword bcT dbT 50 "tok1" "newpass123").2.users, v.id = userT.id →
      v.reset_token = none ∧ v.reset_token_expires = none) ∧
    resetPassword bcT (resetPassword bcT dbT 50 "tok1" "newpass123").2 60
        "tok1" "other9" =
      (.jsonErr "Invalid or expired token",
        (resetPassword bcT dbT 50 "tok1" "newpass123").2) :=
  C2_reset_token_single_use bcT bcT dbT 50 60 "tok1" "newpass123" "other9" userT
    (by decide) (by decide) (by decide) (by decide) (by decide)

/-- C9: when no google link exists for the provider user id and no
account carries the provider email, the callback creates a brand-new
account with `has_password = FALSE`, `oauth_only = TRUE`,
`email_verified = TRUE`, no stored hash, and the username derived from
the email local part (suffixed with the timestamp when already taken),
creates its first OAuth link, and answers with a 30-day bearer token;
and in every branch whatsoever, a success response of the callback
carries a token expiring 30 days out with `expires_in` of 30 days. -/
theorem C9_oauth_callback_new_account (mac : Mac) (now : Nat) :
    (∀ (db : DB) (gid gem atk : String) (rt : Option String) (ei : Nat),
      db.oauth_accounts.find? (googleLinkJoined db gid) = none →
      db.users.find? (fun v => v.email == gem) = none →
      (∃ nu : UserRow,
        (googleCallback mac db now gid gem atk rt ei).2.users = db.users ++ [nu] ∧
        nu.id = db.nextId ∧ nu.has_password = false ∧ nu.oauth_only = true ∧
        nu.email_verified = true ∧ nu.password_hash = none ∧ nu.email = gem ∧
        nu.username = (if db.users.any
            (fun v => v.username == (localPart gem ++ "_google"))
          then localPart gem ++ "_google" ++ "_" ++ toString now
          else localPart gem ++ "_google")) ∧
      (∃ nl : OAuthRow,
        (googleCallback mac db now gid gem atk rt ei).2.oauth_accounts =
          db.oauth_accounts ++ [nl] ∧
        nl.user_id = db.nextId ∧ nl.provider = "google" ∧
        nl.provider_user_id = gid ∧ nl.provider_email = gem) ∧
      (googleCallback mac db now gid gem atk rt ei).1 =
        .oauthSuccess
          (jwtEncode mac SECRET_KEY ⟨db.nextId,
            (if db.users.any (fun v => v.username == (localPart gem ++ "_google"))
              then localPart gem ++ "_google" ++ "_" ++ toString now
              else localPart gem ++ "_google"), "user", now + 30 * 24 * 3600⟩)
          db.nextId
          (if db.users.any (fun v => v.username == (localPart gem ++ "_google"))
            then localPart gem ++ "_google" ++ "_" ++ toString now
            else localPart gem ++ "_google")
          gem "user" false (30 * 24 * 3600) false) ∧
    (∀ (db : DB) (gid gem atk : String) (rt : Option String) (ei : Nat),
      issuedExtendedTTL now ((googleCallback mac db now gid gem atk rt ei).1)) := by
  constructor
  · intro db gid gem atk rt ei hlink hemail
    unfold googleCallback
    rw [hlink, hemail]
    refine ⟨⟨_, rfl, rfl, rfl, rfl, rfl, rfl, rfl, rfl⟩,
      ⟨_, rfl, rfl, rfl, rfl, rfl⟩, rfl⟩
  · intro db gid gem atk rt ei
    unfold googleCallback
    split
    · dsimp only
      split
      · simp [issuedExtendedTTL]
      · simp [issuedExtendedTTL, jwtEncode]
    · split
      · simp [issuedExtendedTTL, jwtEncode]
      · dsimp only
        simp [issuedExtendedTTL, jwtEncode]

/-- C9 witness: on `dbPwT` (only `bob@x.com`, no links), a callback for
the fresh identity `(g9, alice@x.com)` creates the account
`alice_google` with the claimed flags, its first link, and a 30-day
token; and the TTL property holds of that concrete call. -/
theorem C9_oauth_callback_witness :
    ((∃ nu : UserRow,
        (googleCallback macT dbPwT 7 "g9" "alice@x.com" "a1" none 3600).2.users =
          dbPwT.users ++ [nu] ∧
        nu.id = dbPwT.nextId ∧ nu.has_password = false ∧ nu.oauth_only = true ∧
        nu.email_verified = true ∧ nu.password_hash = none ∧
        nu.email = "alice@x.com" ∧
        nu.username = (if dbPwT.users.any
            (fun v => v.username == (localPart "alice@x.com" ++ "_google"))
          then localPart "alice@x.com" ++ "_google" ++ "_" ++ toString 7
          else localPart "alice@x.com" ++ "_google")) ∧
      (∃ nl : OAuthRow,
        (googleCallback macT dbPwT 7 "g9" "alice@x.com" "a1" none 3600).2.oauth_accounts =
          dbPwT.oauth_accounts ++ [nl] ∧
        nl.user_id = dbPwT.nextId ∧ nl.provider = "google" ∧
        nl.provider_user_id = "g9" ∧ nl.provider_email = "alice@x.com") ∧
      (googleCallback macT dbPwT 7 "g9" "alice@x.com" "a1" none 3600).1 =
        .oauthSuccess
          (jwtEncode macT SECRET_KEY ⟨dbPwT.nextId,
            (if dbPwT.users.any
                (fun v => v.username == (localPart "alice@x.com" ++ "_google"))
              then localPart "alice@x.com" ++ "_google" ++ "_" ++ toString 7
              else localPart "alice@x.com" ++ "_google"), "user",
            7 + 30 * 24 * 3600⟩)
          dbPwT.nextId
          (if dbPwT.users.any
              (fun v => v.username == (localPart "alice@x.com" ++ "_google"))
            then localPart "alice@x.com" ++ "_google" ++ "_" ++ toString 7
            else localPart "alice@x.com" ++ "_google")
          "alice@x.com" "user" false (30 * 24 * 3600) false) ∧
    issuedExtendedTTL 7
      ((googleCallback macT dbPwT 7 "g9" "alice@x.com" "a1" none 3600).1) := by
  obtain ⟨knew, kttl⟩ := C9_oauth_callback_new_account macT 7
  exact ⟨knew dbPwT "g9" "alice@x.com" "a1" none 3600 (by decide) (by decide),
    kttl dbPwT "g9" "alice@x.com" "a1" none 3600⟩

/-- C4: the program cannot exhibit the claimed unlink behavior.  The
route's authentication dependency is the stub `Depends(lambda: None)`,
so `user` is `None` on every request and the endpoint raises
`HTTPException(401, "Unauthorized")` before the oauth-only guard: for
every database state and every provider the wired endpoint returns the
401 and mutates nothing — it never returns the Conflict of the claim,
and never deletes a link. -/
theorem C4_unlink_route_always_401 (db : DB) (provider : String) :
    unlinkOauthRoute db provider = (.http 401 "Unauthorized", db) := rfl
